import Mathlib

/-!
Verification development for the 3MF parsing subsystem of the STLviewer
repository (`src/parser_3mf.py`).  The parser opens a zip container, finds
the entry whose name ends in `3dmodel.model`, parses its XML payload and
walks the tree extracting per-object geometry, color and transform.

The shallow embedding below models:
  * XML element trees (`Xml`) together with the `xml.etree.ElementTree`
    lookups the code uses: attribute access with default (`Element.get`),
    direct-child search (`find('tag')`, `findall('tag')`) and document-order
    descendant search (`find('.//tag')`, `findall('.//tag')`);
  * Python numeric conversions `float(s)`, `int(s)` and `int(s, 16)` as
    exact partial functions into `ℚ` / `ℤ` / `ℕ` (finite decimal/hex
    literals; a failed conversion models the raised `ValueError`);
  * the zip archive as a list of named entries whose payload is recorded as
    the outcome of `ET.fromstring` on the entry bytes (`Except String Xml`);
  * `load_3mf` itself, with Python exceptions embedded as an `Err` sum
    (`ValueError` from the parser's own checks and failed numeric
    conversions appears as `Err.formatError`, `ET.ParseError` as
    `Err.parseError`, `zipfile.BadZipFile` as `Err.archiveError`, and the
    `AttributeError` from calling a method on `None` as
    `Err.attributeError`).
-/

set_option autoImplicit false

/-- An XML element: a tag, an attribute list (lookup takes the first
binding, modelling the attribute dict) and an ordered child list.
Namespaced tags are stored in ElementTree Clark notation
`\x7buri\x7dtag`. -/
inductive Xml : Type where
  | mk (tag : String) (attrs : List (String × String)) (children : List Xml)

/-- The tag of an element. -/
def Xml.tag : Xml → String
  | .mk t _ _ => t

/-- The attribute list of an element. -/
def Xml.attrs : Xml → List (String × String)
  | .mk _ a _ => a

/-- The ordered child list of an element. -/
def Xml.children : Xml → List Xml
  | .mk _ _ c => c

/-- First value bound to a key in an attribute list. -/
def lookupAttr : List (String × String) → String → Option String
  | [], _ => none
  | (k, v) :: rest, key => if k = key then some v else lookupAttr rest key

/-- `Element.get(key)` — `None` when the attribute is absent. -/
def Xml.get (e : Xml) (key : String) : Option String :=
  lookupAttr e.attrs key

/-- `Element.get(key, default)`. -/
def Xml.getD (e : Xml) (key : String) (d : String) : String :=
  (e.get key).getD d

mutual
/-- All proper descendants of an element in document (pre-)order; this is
the iteration order of ElementTree's `.//` descendant search. -/
def Xml.descendants : Xml → List Xml
  | .mk _ _ cs => descList cs
/-- Document-order listing of a forest: each root followed by its
descendants. -/
def descList : List Xml → List Xml
  | [] => []
  | c :: cs => c :: (Xml.descendants c ++ descList cs)
end

/-- `element.findall('.//tag')`: every descendant with the tag, in document
order. -/
def findallDesc (tag : String) (e : Xml) : List Xml :=
  e.descendants.filter (fun c => c.tag = tag)

/-- `element.find('.//tag')`: first descendant with the tag in document
order, `None` if there is none. -/
def findDesc (tag : String) (e : Xml) : Option Xml :=
  e.descendants.find? (fun c => c.tag = tag)

/-- `element.find('tag')`: first direct child with the tag. -/
def findChild (tag : String) (e : Xml) : Option Xml :=
  e.children.find? (fun c => c.tag = tag)

/-- `element.findall('tag')`: all direct children with the tag, in order. -/
def findallChildren (tag : String) (e : Xml) : List Xml :=
  e.children.filter (fun c => c.tag = tag)

/-- Value of a single hexadecimal digit. -/
def hexVal? (c : Char) : Option Nat :=
  if c.isDigit then some (c.toNat - '0'.toNat)
  else if 'a' ≤ c ∧ c ≤ 'f' then some (c.toNat - 'a'.toNat + 10)
  else if 'A' ≤ c ∧ c ≤ 'F' then some (c.toNat - 'A'.toNat + 10)
  else none

/-- Whitespace as Python's `int` conversion strips it: the
`Py_UNICODE_ISSPACE` set (tab through carriage return, the `0x1C`–`0x20`
separators, next line, no-break space, and the Unicode space code
points). -/
def pyIsSpace (c : Char) : Bool :=
  decide ((0x09 ≤ c.toNat ∧ c.toNat ≤ 0x0D) ∨ (0x1C ≤ c.toNat ∧ c.toNat ≤ 0x20)
    ∨ c.toNat = 0x85 ∨ c.toNat = 0xA0 ∨ c.toNat = 0x1680
    ∨ (0x2000 ≤ c.toNat ∧ c.toNat ≤ 0x200A) ∨ c.toNat = 0x2028
    ∨ c.toNat = 0x2029 ∨ c.toNat = 0x202F ∨ c.toNat = 0x205F
    ∨ c.toNat = 0x3000)

/-- Removal of leading and trailing whitespace, as `int(s, 16)` performs
before parsing. -/
def pyStrip (cs : List Char) : List Char :=
  ((cs.dropWhile pyIsSpace).reverse.dropWhile pyIsSpace).reverse

/-- Hex digits after the first one, allowing a single `_` separator
between digits (PEP 515); `none` on anything else, including a trailing
or doubled underscore. -/
def hexUA : List Char → Nat → Option Nat
  | [], acc => some acc
  | '_' :: cs, acc =>
    match cs with
    | c :: rest =>
      match hexVal? c with
      | some v => hexUA rest (acc * 16 + v)
      | none => none
    | [] => none
  | c :: cs, acc =>
    match hexVal? c with
    | some v => hexUA cs (acc * 16 + v)
    | none => none

/-- A non-empty run of hex digits with optional `_` separators between
digits; the first character must be a digit. -/
def hexBody : List Char → Option Nat
  | c :: cs =>
    match hexVal? c with
    | some v => hexUA cs v
    | none => none
  | [] => none

/-- Digit part of `int(s, 16)` after the optional sign: an optional
`0x`/`0X` base marker (with an optional `_` directly after it) followed
by hex digits. -/
def hexAfterSign : List Char → Option Nat
  | '0' :: c :: cs =>
    if c = 'x' ∨ c = 'X' then
      match cs with
      | '_' :: rest => hexBody rest
      | rest => hexBody rest
    else
      hexBody ('0' :: c :: cs)
  | cs => hexBody cs

/-- Python `int(s, 16)`: strips surrounding whitespace, accepts an
optional sign (so the result is a signed integer, `int("-1", 16) = -1`),
an optional `0x`/`0X` marker and `_` separators between hex digits;
`none` models the raised `ValueError`.  Not modelled: non-ASCII decimal
digit characters, which CPython folds to their ASCII digits before
parsing. -/
def parseHex (s : String) : Option ℤ :=
  match pyStrip s.toList with
  | '+' :: cs => (hexAfterSign cs).map (fun n => (n : ℤ))
  | '-' :: cs => (hexAfterSign cs).map (fun n => -(n : ℤ))
  | cs => (hexAfterSign cs).map (fun n => (n : ℤ))

/-- Accumulate decimal digits; `none` on the first non-digit. -/
def decAcc : List Char → Nat → Option Nat
  | [], acc => some acc
  | c :: cs, acc =>
    if c.isDigit then decAcc cs (acc * 10 + (c.toNat - '0'.toNat)) else none

/-- A non-empty run of decimal digits as a number. -/
def parseDigits : List Char → Option Nat
  | [] => none
  | cs => decAcc cs 0

/-- Python `int(s)` on an optionally signed decimal literal; `none` models
the raised `ValueError`. -/
def parseInt (s : String) : Option Int :=
  match s.toList with
  | '-' :: cs => (parseDigits cs).map (fun n => -(n : Int))
  | '+' :: cs => (parseDigits cs).map (fun n => (n : Int))
  | cs => (parseDigits cs).map (fun n => (n : Int))

/-- Total value of a digit run (used after the run has been validated). -/
def digitsNat (cs : List Char) : Nat :=
  cs.foldl (fun a c => a * 10 + (c.toNat - '0'.toNat)) 0

/-- Exponent suffix of a float literal: optional sign then digits, scaling
the mantissa by a power of ten. -/
def parseExpPart (mant : ℚ) : List Char → Option ℚ
  | '-' :: cs => (parseDigits cs).map (fun n => mant / 10 ^ n)
  | '+' :: cs => (parseDigits cs).map (fun n => mant * 10 ^ n)
  | cs => (parseDigits cs).map (fun n => mant * 10 ^ n)

/-- Mantissa of a float literal: digits with an optional fractional part,
at least one digit present; returns the value and the unconsumed rest. -/
def parseMantissa (cs : List Char) : Option (ℚ × List Char) :=
  let ip := cs.takeWhile Char.isDigit
  let rest := cs.dropWhile Char.isDigit
  match rest with
  | '.' :: r =>
    let fp := r.takeWhile Char.isDigit
    let r2 := r.dropWhile Char.isDigit
    if ip.isEmpty ∧ fp.isEmpty then none
    else some ((digitsNat ip : ℚ) + (digitsNat fp : ℚ) / 10 ^ fp.length, r2)
  | _ => if ip.isEmpty then none else some ((digitsNat ip : ℚ), rest)

/-- Unsigned float literal: mantissa with an optional exponent. -/
def parseUnsignedFloat (cs : List Char) : Option ℚ :=
  match parseMantissa cs with
  | none => none
  | some (m, rest) =>
    match rest with
    | [] => some m
    | 'e' :: er => parseExpPart m er
    | 'E' :: er => parseExpPart m er
    | _ => none

/-- Python `float(s)` on a finite decimal literal, valued exactly in `ℚ`;
`none` models the raised `ValueError`.  (`inf`/`nan` inputs are outside
the finite literals this development reasons about.) -/
def parseFloat (s : String) : Option ℚ :=
  match s.toList with
  | '-' :: cs => (parseUnsignedFloat cs).map (fun q => -q)
  | '+' :: cs => parseUnsignedFloat cs
  | cs => parseUnsignedFloat cs

/-- Helper for `splitWs`: current partial token is carried reversed. -/
def splitWsAux : List Char → List Char → List String
  | [], [] => []
  | [], tok => [String.mk tok.reverse]
  | c :: cs, tok =>
    if c.isWhitespace then
      match tok with
      | [] => splitWsAux cs []
      | _ => String.mk tok.reverse :: splitWsAux cs []
    else splitWsAux cs (c :: tok)

/-- Python `s.split()` with no argument: split on runs of whitespace,
discarding empty tokens. -/
def splitWs (s : String) : List String :=
  splitWsAux s.toList []

/-- Python slice `s[a:b]` for character indices `a ≤ b` (clamped at the
string's end, as in Python). -/
def pySlice (s : String) (a b : Nat) : String :=
  String.mk ((s.toList.drop a).take (b - a))

/-- Python `s.startswith(p)`. -/
def pyStartsWith (s p : String) : Bool :=
  s.toList.take p.length == p.toList

/-- Python `s.endswith(p)`. -/
def pyEndsWith (s p : String) : Bool :=
  s.toList.drop (s.length - p.length) == p.toList

/-- A 3D point; coordinates are the exact rational values of the parsed
float literals. -/
abbrev Point := ℚ × ℚ × ℚ

/-- A triangle as the three vertex indices read from `v1`,`v2`,`v3`. -/
abbrev Tri := ℤ × ℤ × ℤ

/-- The mesh the parser assembles into a `vtkPolyData`: the inserted point
sequence and the inserted triangle-cell sequence, in insertion order. -/
structure Mesh3D where
  points : List Point
  cells : List Tri
deriving DecidableEq, Repr

/-- `Color3MF` from `object_manager.py`: four channels, each an exact
rational in place of the Python float. -/
structure Color3MF where
  r : ℚ
  g : ℚ
  b : ℚ
  a : ℚ
deriving DecidableEq, Repr

/-- A `vtkMatrix4x4` as filled by the parser's double loop
`SetElement(i, j, values[i*4+j])`: row-major storage of the 16 values. -/
structure Matrix4x4 where
  entries : List ℚ
deriving DecidableEq, Repr

/-- Entry at row `i`, column `j` of the row-major storage. -/
def Matrix4x4.elem (m : Matrix4x4) (i j : Nat) : ℚ :=
  m.entries.getD (i * 4 + j) 0

/-- `Object3MF` from `parser_3mf.py`. -/
structure Object3MF where
  name : String
  mesh : Mesh3D
  transform : Option Matrix4x4 := none
  color : Option Color3MF := none
deriving DecidableEq, Repr

/-- The Python exceptions `load_3mf` can raise, under the spec's taxonomy:
`archiveError` embeds `zipfile.BadZipFile`/unreadable input,
`formatError` embeds `ValueError` (the parser's own raise and failed
`int`/`float` conversions), `parseError` embeds `ET.ParseError`, and
`attributeError` embeds the `AttributeError` raised by calling a method
on `None`. -/
inductive Err where
  | archiveError (msg : String)
  | formatError (msg : String)
  | parseError (msg : String)
  | attributeError (msg : String)
deriving DecidableEq, Repr

/-- Decidable equality of `Except` values, used to evaluate the embedded
parser on concrete inputs. -/
instance {ε α : Type} [DecidableEq ε] [DecidableEq α] : DecidableEq (Except ε α) :=
  fun a b =>
    match a, b with
    | .error e, .error f =>
      if h : e = f then .isTrue (by rw [h]) else .isFalse (by simp [h])
    | .ok x, .ok y =>
      if h : x = y then .isTrue (by rw [h]) else .isFalse (by simp [h])
    | .error _, .ok _ => .isFalse (by simp)
    | .ok _, .error _ => .isFalse (by simp)

/-- A zip entry: its name and its payload, recorded as the outcome of
`ET.fromstring` on the entry's bytes (`Except.error msg` when the bytes
are not well-formed XML). -/
structure ZipEntry where
  name : String
  content : Except String Xml

/-- A successfully opened zip archive: its entries in `namelist()` order. -/
structure ZipFile where
  entries : List ZipEntry

/-- Clark-notation tag of `m:color` under the materials namespace bound in
the parser's `ns` dict. -/
def mColorTag : String :=
  "\x7bhttp://schemas.microsoft.com/3dmanufacturing/material/2015/02\x7dcolor"

/-- The literal suffix the container reader searches for. -/
def modelSuffix : String := "3dmodel.model"

/-- The parser's default transform attribute string. -/
def identityTransformStr : String := "1 0 0 0 0 1 0 0 0 0 1 0 0 0 0 1"

/-- `float(vertex.get(key, 0))`: a missing attribute defaults to the number
`0`; a present attribute is converted with `float`, whose failure raises. -/
def floatAttr (e : Xml) (key : String) : Option ℚ :=
  match e.get key with
  | some s => parseFloat s
  | none => some 0

/-- `int(triangle.get(key, 0))`: a missing attribute defaults to the number
`0`; a present attribute is converted with `int`, whose failure raises. -/
def intAttr (e : Xml) (key : String) : Option ℤ :=
  match e.get key with
  | some s => parseInt s
  | none => some 0

/-- The point inserted for one `vertex` element (`x`,`y`,`z` attributes,
each defaulting to `0`); `none` models a `ValueError` from `float`. -/
def parseVertex (v : Xml) : Option Point := do
  let x ← floatAttr v "x"
  let y ← floatAttr v "y"
  let z ← floatAttr v "z"
  some (x, y, z)

/-- The index triple inserted for one `triangle` element (`v1`,`v2`,`v3`
attributes, each defaulting to `0`); `none` models a `ValueError`. -/
def parseTriangle (t : Xml) : Option Tri := do
  let v1 ← intAttr t "v1"
  let v2 ← intAttr t "v2"
  let v3 ← intAttr t "v3"
  some (v1, v2, v3)

/-- The vertex loop: `for vertex in vertices.findall('vertex')` appending
`InsertNextPoint(x, y, z)`, aborting with `ValueError` on a bad float. -/
def buildPoints : List Xml → Except Err (List Point)
  | [] => .ok []
  | v :: vs =>
    match parseVertex v with
    | none => .error (.formatError "could not convert string to float")
    | some p => (buildPoints vs).map (fun ps => p :: ps)

/-- The triangle loop: `for triangle in triangles.findall('triangle')`
appending one cell, aborting with `ValueError` on a bad int. -/
def buildTriangles : List Xml → Except Err (List Tri)
  | [] => .ok []
  | t :: ts =>
    match parseTriangle t with
    | none => .error (.formatError "invalid literal for int() with base 10")
    | some tr => (buildTriangles ts).map (fun trs => tr :: trs)

/-- The color block on a found color element's `value` attribute (already
defaulted to `#FFFFFFFF` when absent): if it starts with `#`, decode the
character slices `[1:3]`, `[3:5]`, `[5:7]` with `int(·, 16)` and divide by
255, with alpha from `[7:9]` when the string is longer than 7 characters
and `1` otherwise; a failed conversion raises `ValueError`.  If it does
not start with `#`, the object's color is left `None`. -/
def decodeColorValue (cv : String) : Except Err (Option Color3MF) :=
  if pyStartsWith cv "#" then
    match parseHex (pySlice cv 1 3) with
    | none => .error (.formatError "invalid literal for int() with base 16")
    | some rn =>
    match parseHex (pySlice cv 3 5) with
    | none => .error (.formatError "invalid literal for int() with base 16")
    | some gn =>
    match parseHex (pySlice cv 5 7) with
    | none => .error (.formatError "invalid literal for int() with base 16")
    | some bn =>
    if 7 < cv.length then
      match parseHex (pySlice cv 7 9) with
      | none => .error (.formatError "invalid literal for int() with base 16")
      | some an =>
        .ok (some ⟨(rn : ℚ) / 255, (gn : ℚ) / 255, (bn : ℚ) / 255, (an : ℚ) / 255⟩)
    else
      .ok (some ⟨(rn : ℚ) / 255, (gn : ℚ) / 255, (bn : ℚ) / 255, 1⟩)
  else
    .ok none

/-- `color = obj.find('.//m:color', ns)` followed by the color block; no
color element leaves the object's color `None`. -/
def processColor (obj : Xml) : Except Err (Option Color3MF) :=
  match findDesc mColorTag obj with
  | none => .ok none
  | some color => decodeColorValue (color.getD "value" "#FFFFFFFF")

/-- The list comprehension `[float(x) for x in matrix.split()]`, aborting
with `ValueError` on a bad float. -/
def parseFloats : List String → Except Err (List ℚ)
  | [] => .ok []
  | s :: ss =>
    match parseFloat s with
    | none => .error (.formatError "could not convert string to float")
    | some q => (parseFloats ss).map (fun qs => q :: qs)

/-- `transform = obj.find('.//transform')` followed by the transform block:
the `value` attribute (defaulting to the identity string) is split and
converted to floats; exactly 16 values build the row-major matrix, any
other count leaves the transform `None`. -/
def processTransform (obj : Xml) : Except Err (Option Matrix4x4) :=
  match findDesc "transform" obj with
  | none => .ok none
  | some t =>
    match parseFloats (splitWs (t.getD "value" identityTransformStr)) with
    | .error e => .error e
    | .ok values =>
      if values.length = 16 then .ok (some ⟨values⟩) else .ok none

/-- One iteration of the object loop, given the number of objects already
accumulated: a missing descendant `mesh` skips the object (`ok none`);
otherwise `mesh.find('vertices')`/`mesh.find('triangles')` returning
`None` raises `AttributeError` at the subsequent `findall` call, the
vertex and triangle loops run, the name defaults to `Object_<n>`, and the
color and transform blocks run, in the source's order. -/
def processObject (numObjects : Nat) (obj : Xml) : Except Err (Option Object3MF) :=
  match findDesc "mesh" obj with
  | none => .ok none
  | some mesh =>
    match findChild "vertices" mesh with
    | none => .error (.attributeError "NoneType object has no attribute findall")
    | some vertices =>
    match buildPoints (findallChildren "vertex" vertices) with
    | .error e => .error e
    | .ok pts =>
    match findChild "triangles" mesh with
    | none => .error (.attributeError "NoneType object has no attribute findall")
    | some triangles =>
    match buildTriangles (findallChildren "triangle" triangles) with
    | .error e => .error e
    | .ok tris =>
    let name := obj.getD "name" ("Object_" ++ toString numObjects)
    match processColor obj with
    | .error e => .error e
    | .ok col =>
    match processTransform obj with
    | .error e => .error e
    | .ok tr =>
      .ok (some { name := name, mesh := ⟨pts, tris⟩, transform := tr, color := col })

/-- The loop `for obj in resources.findall('.//object')` threading the
growing `objects` list; any raised exception aborts the whole load. -/
def processObjects : List Xml → List Object3MF → Except Err (List Object3MF)
  | [], acc => .ok acc
  | obj :: rest, acc =>
    match processObject acc.length obj with
    | .error e => .error e
    | .ok none => processObjects rest acc
    | .ok (some x) => processObjects rest (acc ++ [x])

/-- The entry-name scan: first entry in `namelist()` order whose name ends
with `3dmodel.model`.  (A found name necessarily ends with the non-empty
suffix, so it is non-empty and Python's `if not model_file:` is exactly
the `none` case.) -/
def findModelEntry (zf : ZipFile) : Option ZipEntry :=
  zf.entries.find? (fun e => pyEndsWith e.name modelSuffix)

/-- Body of the `with` block of `load_3mf`: locate the model entry (raising
`ValueError("No 3D model found in 3MF file")` when absent), parse its XML
(`ET.fromstring`, raising `ParseError` on malformed XML), find the first
descendant `resources` element (no `resources` yields the empty list) and
run the object loop over its descendant `object` elements. -/
def loadBody (zf : ZipFile) : Except Err (List Object3MF) :=
  match findModelEntry zf with
  | none => .error (.formatError "No 3D model found in 3MF file")
  | some entry =>
    match entry.content with
    | .error msg => .error (.parseError msg)
    | .ok root =>
      match findDesc "resources" root with
      | none => .ok []
      | some resources => processObjects (findallDesc "object" resources) []

/-- `load_3mf`: the input is the outcome of `zipfile.ZipFile(file_path)`
(`Except.error` when the path is not a readable zip, which the `with`
statement re-raises before the body runs). -/
def load_3mf (file : Except String ZipFile) : Except Err (List Object3MF) :=
  match file with
  | .error msg => .error (.archiveError msg)
  | .ok zf => loadBody zf

/-- `load_3mf` with the archive handle's lifecycle made explicit: the
second component records that the handle was closed before returning
(vacuously `true` when the open itself failed and no handle existed).
The `with zipfile.ZipFile(...)` statement closes the handle on both the
normal and the exceptional exit of the body, which this embedding
reflects by closing after the body's `Except` value — success or error —
is fully determined. -/
def load_3mf_traced (file : Except String ZipFile) : Except Err (List Object3MF) × Bool :=
  match file with
  | .error msg => (.error (.archiveError msg), true)
  | .ok zf => (loadBody zf, true)

/-! ## Helper lemmas -/

/-- The vertex loop appends one point per `vertex` child. -/
theorem buildPoints_length (xs : List Xml) (ps : List Point)
    (h : buildPoints xs = .ok ps) : ps.length = xs.length := by
  induction xs generalizing ps with
  | nil =>
    simp only [buildPoints] at h
    cases h
    rfl
  | cons v vs ih =>
    unfold buildPoints at h
    cases hv : parseVertex v with
    | none => rw [hv] at h; exact absurd h (by simp)
    | some p =>
      rw [hv] at h
      cases hb : buildPoints vs with
      | error e => rw [hb] at h; exact absurd h (by simp [Except.map])
      | ok qs =>
        rw [hb] at h
        simp only [Except.map, Except.ok.injEq] at h
        cases h
        simp [ih qs hb]

/-- The triangle loop appends one cell per `triangle` child. -/
theorem buildTriangles_length (xs : List Xml) (ts : List Tri)
    (h : buildTriangles xs = .ok ts) : ts.length = xs.length := by
  induction xs generalizing ts with
  | nil =>
    simp only [buildTriangles] at h
    cases h
    rfl
  | cons t rest ih =>
    unfold buildTriangles at h
    cases hv : parseTriangle t with
    | none => rw [hv] at h; exact absurd h (by simp)
    | some p =>
      rw [hv] at h
      cases hb : buildTriangles rest with
      | error e => rw [hb] at h; exact absurd h (by simp [Except.map])
      | ok qs =>
        rw [hb] at h
        simp only [Except.map, Except.ok.injEq] at h
        cases h
        simp [ih qs hb]

/-- A run of meshless `object` elements is skipped without touching the
accumulator. -/
theorem processObjects_skipAll (pre rest : List Xml) (acc : List Object3MF)
    (h : ∀ x ∈ pre, findDesc "mesh" x = none) :
    processObjects (pre ++ rest) acc = processObjects rest acc := by
  induction pre with
  | nil => rfl
  | cons o os ih =>
    have ho := h o (by simp)
    simp only [List.cons_append, processObjects, processObject, ho]
    exact ih (fun x hx => h x (by simp [hx]))

/-- One successful iteration of the object loop appends its object. -/
theorem processObjects_step (o : Xml) (os : List Xml) (acc : List Object3MF)
    (x : Object3MF) (h : processObject acc.length o = .ok (some x)) :
    processObjects (o :: os) acc = processObjects os (acc ++ [x]) := by
  simp only [processObjects, h]

/-- Computation of one fully successful iteration of the object loop. -/
theorem processObject_ok (n : Nat) (o m vs ts : Xml) (pts : List Point)
    (tris : List Tri) (col : Option Color3MF) (tr : Option Matrix4x4)
    (h1 : findDesc "mesh" o = some m)
    (h2 : findChild "vertices" m = some vs)
    (h3 : buildPoints (findallChildren "vertex" vs) = .ok pts)
    (h4 : findChild "triangles" m = some ts)
    (h5 : buildTriangles (findallChildren "triangle" ts) = .ok tris)
    (h6 : processColor o = .ok col)
    (h7 : processTransform o = .ok tr) :
    processObject n o = .ok (some
      { name := o.getD "name" ("Object_" ++ toString n),
        mesh := ⟨pts, tris⟩, transform := tr, color := col }) := by
  simp only [processObject, h1, h2, h3, h4, h5, h6, h7]

/-! ## Claim theorems -/

/-- C2: for every zip archive with no entry whose name ends in
`3dmodel.model`, `load_3mf` fails with the format error
`"No 3D model found in 3MF file"` and returns no partial object list. -/
theorem c2_no_model_entry (zf : ZipFile)
    (h : ∀ e ∈ zf.entries, pyEndsWith e.name modelSuffix = false) :
    load_3mf (.ok zf) = .error (.formatError "No 3D model found in 3MF file") := by
  have hf : findModelEntry zf = none := by
    unfold findModelEntry
    rw [List.find?_eq_none]
    intro e he
    simp [h e he]
  simp [load_3mf, loadBody, hf]

/-- Witness for C2 at a one-entry archive whose entry name does not end in
the model suffix. -/
theorem c2_no_model_entry_witness :
    load_3mf (.ok ⟨[⟨"content.txt", .error "ignored"⟩]⟩) =
      .error (.formatError "No 3D model found in 3MF file") :=
  c2_no_model_entry _ (by
    intro e he
    rw [List.mem_singleton] at he
    subst he
    decide)

/-- C3 counterexample: a present `value` attribute of 10 hex digits — a
length other than 6 or 8 — does not fail; it decodes (using only the first
8 digits) to opaque white with no error, contradicting the claim that any
length other than 6 or 8 raises a format error. -/
theorem c3_malformed_length_counterexample :
    processColor (Xml.mk "object" []
        [Xml.mk mColorTag [("value", "#FFFFFFFF00")] []]) =
      .ok (some ⟨1, 1, 1, 1⟩) := by
  have h : processColor (Xml.mk "object" []
        [Xml.mk mColorTag [("value", "#FFFFFFFF00")] []]) =
      .ok (some ⟨((255 : ℤ) : ℚ) / 255, ((255 : ℤ) : ℚ) / 255,
        ((255 : ℤ) : ℚ) / 255, ((255 : ℤ) : ℚ) / 255⟩) := rfl
  rw [h]
  norm_num

/-- C3 (amended): on the found color element, a present `value` attribute
starting with `#` fails with a format error — rather than silently
defaulting — whenever one of the consumed slices `[1:3]`, `[3:5]`, `[5:7]`
(and `[7:9]` when the length exceeds 7) fails to convert under
`int(·, 16)`, as with `#ZZZZZZ`; the opaque-white default applies only
when the `value` attribute is absent.  (A length other than exactly 6 or
8 hex digits does not by itself fail: the counterexample's 10 hex digits
decode from the first 8.) -/
theorem c3_color_value_behavior (obj ce : Xml)
    (h : findDesc mColorTag obj = some ce) :
    (ce.get "value" = none → processColor obj = .ok (some ⟨1, 1, 1, 1⟩))
    ∧ ∀ v, ce.get "value" = some v → pyStartsWith v "#" = true →
        (parseHex (pySlice v 1 3) = none ∨ parseHex (pySlice v 3 5) = none ∨
         parseHex (pySlice v 5 7) = none ∨
         (7 < v.length ∧ parseHex (pySlice v 7 9) = none)) →
        processColor obj =
          .error (.formatError "invalid literal for int() with base 16") := by
  constructor
  · intro hv
    have hd : processColor obj = decodeColorValue "#FFFFFFFF" := by
      simp [processColor, h, Xml.getD, hv]
    have he : decodeColorValue "#FFFFFFFF" =
        .ok (some ⟨((255 : ℤ) : ℚ) / 255, ((255 : ℤ) : ℚ) / 255,
          ((255 : ℤ) : ℚ) / 255, ((255 : ℤ) : ℚ) / 255⟩) := rfl
    rw [hd, he]
    norm_num
  · intro v hv hs hbad
    have hd : processColor obj = decodeColorValue v := by
      simp [processColor, h, Xml.getD, hv]
    rw [hd]
    unfold decodeColorValue
    rw [hs]
    rcases hbad with hb | hb | hb | ⟨hlen, hb⟩
    · simp [hb]
    · cases h1 : parseHex (pySlice v 1 3) with
      | none => simp
      | some rn => simp [hb]
    · cases h1 : parseHex (pySlice v 1 3) with
      | none => simp
      | some rn =>
        cases h2 : parseHex (pySlice v 3 5) with
        | none => simp
        | some gn => simp [hb]
    · cases h1 : parseHex (pySlice v 1 3) with
      | none => simp
      | some rn =>
        cases h2 : parseHex (pySlice v 3 5) with
        | none => simp
        | some gn =>
          cases h3 : parseHex (pySlice v 5 7) with
          | none => simp
          | some bn => simp [hlen, hb]

/-- Witness for C3 (amended): a color element with no `value` attribute
decodes to opaque white, and one with value `#ZZZZZZ` fails with the
format error. -/
theorem c3_color_value_behavior_witness :
    processColor (Xml.mk "object" [] [Xml.mk mColorTag [] []]) =
      .ok (some ⟨1, 1, 1, 1⟩)
    ∧ processColor (Xml.mk "object" []
          [Xml.mk mColorTag [("value", "#ZZZZZZ")] []]) =
        .error (.formatError "invalid literal for int() with base 16") :=
  ⟨(c3_color_value_behavior (Xml.mk "object" [] [Xml.mk mColorTag [] []])
      (Xml.mk mColorTag [] []) rfl).1 rfl,
   (c3_color_value_behavior (Xml.mk "object" []
        [Xml.mk mColorTag [("value", "#ZZZZZZ")] []])
      (Xml.mk mColorTag [("value", "#ZZZZZZ")] []) rfl).2
     "#ZZZZZZ" rfl rfl (Or.inl rfl)⟩

/-- C4: on the found transform element, a `value` attribute whose tokens
all convert to floats yields, when there are exactly 16 of them, the
row-major matrix with `values[i*4+j]` at row `i`, column `j`; any other
count silently leaves the transform absent (`none`), not an error. -/
theorem c4_transform_value (obj t : Xml) (v : String) (values : List ℚ)
    (h1 : findDesc "transform" obj = some t)
    (h2 : t.get "value" = some v)
    (h3 : parseFloats (splitWs v) = .ok values) :
    (values.length = 16 →
        processTransform obj = .ok (some ⟨values⟩)
        ∧ ∀ i j : Nat, i < 4 → j < 4 →
            Matrix4x4.elem ⟨values⟩ i j = values.getD (i * 4 + j) 0)
    ∧ (values.length ≠ 16 → processTransform obj = .ok none) := by
  have hd : processTransform obj =
      (if values.length = 16 then .ok (some ⟨values⟩) else .ok none) := by
    simp [processTransform, h1, Xml.getD, h2, h3]
  constructor
  · intro hl
    exact ⟨by simp [hd, hl], fun i j _ _ => rfl⟩
  · intro hl
    simp [hd, hl]

/-- The object of the C4 witness carrying the 16-value example string. -/
def c4Obj16 : Xml :=
  Xml.mk "object" []
    [Xml.mk "transform" [("value", "1 0 0 0 0 1 0 0 0 0 1 0 5 6 7 1")] []]

/-- The object of the C4 witness carrying a 12-value string. -/
def c4Obj12 : Xml :=
  Xml.mk "object" []
    [Xml.mk "transform" [("value", "1 0 0 0 0 1 0 0 0 0 1 0")] []]

/-- The 16 exact values of the C4 example string, in token order. -/
def c4Values : List ℚ :=
  [((1 : ℕ) : ℚ), ((0 : ℕ) : ℚ), ((0 : ℕ) : ℚ), ((0 : ℕ) : ℚ),
   ((0 : ℕ) : ℚ), ((1 : ℕ) : ℚ), ((0 : ℕ) : ℚ), ((0 : ℕ) : ℚ),
   ((0 : ℕ) : ℚ), ((0 : ℕ) : ℚ), ((1 : ℕ) : ℚ), ((0 : ℕ) : ℚ),
   ((5 : ℕ) : ℚ), ((6 : ℕ) : ℚ), ((7 : ℕ) : ℚ), ((1 : ℕ) : ℚ)]

/-- Witness for C4: the example 16-value string builds the matrix whose
row 3 is the translation row `[5, 6, 7, 1]`, and a 12-value string leaves
the transform `none`. -/
theorem c4_transform_value_witness :
    (processTransform c4Obj16 = .ok (some ⟨c4Values⟩)
      ∧ Matrix4x4.elem ⟨c4Values⟩ 3 0 = 5 ∧ Matrix4x4.elem ⟨c4Values⟩ 3 1 = 6
      ∧ Matrix4x4.elem ⟨c4Values⟩ 3 2 = 7 ∧ Matrix4x4.elem ⟨c4Values⟩ 3 3 = 1)
    ∧ processTransform c4Obj12 = .ok none := by
  refine ⟨⟨?_, by norm_num [Matrix4x4.elem, c4Values], by norm_num [Matrix4x4.elem, c4Values],
    by norm_num [Matrix4x4.elem, c4Values], by norm_num [Matrix4x4.elem, c4Values]⟩, ?_⟩
  · exact ((c4_transform_value c4Obj16 (Xml.mk "transform"
      [("value", "1 0 0 0 0 1 0 0 0 0 1 0 5 6 7 1")] [])
      "1 0 0 0 0 1 0 0 0 0 1 0 5 6 7 1" c4Values rfl rfl rfl).1 rfl).1
  · exact (c4_transform_value c4Obj12 (Xml.mk "transform"
      [("value", "1 0 0 0 0 1 0 0 0 0 1 0")] [])
      "1 0 0 0 0 1 0 0 0 0 1 0"
      [((1 : ℕ) : ℚ), ((0 : ℕ) : ℚ), ((0 : ℕ) : ℚ), ((0 : ℕ) : ℚ),
       ((0 : ℕ) : ℚ), ((1 : ℕ) : ℚ), ((0 : ℕ) : ℚ), ((0 : ℕ) : ℚ),
       ((0 : ℕ) : ℚ), ((0 : ℕ) : ℚ), ((1 : ℕ) : ℚ), ((0 : ℕ) : ℚ)]
      rfl rfl rfl).2 (by decide)

/-- C6: an `object` element with no descendant `mesh` element is silently
skipped: its loop iteration yields no entry and no error, and the
accumulator — whose length numbers subsequent unnamed objects — is
unchanged. -/
theorem c6_meshless_object_skipped (o : Xml) (os : List Xml)
    (acc : List Object3MF) (h : findDesc "mesh" o = none) :
    processObject acc.length o = .ok none
    ∧ processObjects (o :: os) acc = processObjects os acc := by
  refine ⟨by simp [processObject, h], ?_⟩
  simp only [processObjects, processObject, h]

/-- The meshless object of the C6 witness. -/
def c6Meshless : Xml := Xml.mk "object" [("name", "empty")] []

/-- The unnamed mesh-bearing object of the C6 witness. -/
def c6MeshObj : Xml :=
  Xml.mk "object" []
    [Xml.mk "mesh" [] [Xml.mk "vertices" [] [], Xml.mk "triangles" [] []]]

/-- Witness for C6: a meshless object followed by an unnamed mesh-bearing
object yields one entry, still named `Object_0`. -/
theorem c6_meshless_object_skipped_witness :
    processObjects [c6Meshless, c6MeshObj] [] =
      .ok [{ name := "Object_0", mesh := ⟨[], []⟩ }] := by
  rw [(c6_meshless_object_skipped c6Meshless [c6MeshObj] [] rfl).2]
  rfl

/-- C7: `#FF0000FF` (8 hex digits) decodes to `ColorRGBA(1, 0, 0, 1)`, and
every 6-hex-digit value `#RRGGBB` decodes each channel as its 8-bit hex
pair divided by 255 with alpha defaulting to 1 when the alpha pair is
omitted. -/
theorem c7_color_decoding :
    decodeColorValue "#FF0000FF" = .ok (some ⟨1, 0, 0, 1⟩)
    ∧ ∀ (v : String) (rn gn bn : ℤ),
        pyStartsWith v "#" = true → v.length = 7 →
        parseHex (pySlice v 1 3) = some rn →
        parseHex (pySlice v 3 5) = some gn →
        parseHex (pySlice v 5 7) = some bn →
        decodeColorValue v =
          .ok (some ⟨(rn : ℚ) / 255, (gn : ℚ) / 255, (bn : ℚ) / 255, 1⟩) := by
  constructor
  · have h : decodeColorValue "#FF0000FF" =
        .ok (some ⟨((255 : ℤ) : ℚ) / 255, ((0 : ℤ) : ℚ) / 255,
          ((0 : ℤ) : ℚ) / 255, ((255 : ℤ) : ℚ) / 255⟩) := rfl
    rw [h]
    norm_num
  · intro v rn gn bn hs hl h1 h2 h3
    unfold decodeColorValue
    simp [hs, h1, h2, h3, hl]

/-- Witness for C7: `#00FF00` decodes to `ColorRGBA(0, 1, 0, 1)`. -/
theorem c7_color_decoding_witness :
    decodeColorValue "#00FF00" = .ok (some ⟨0, 1, 0, 1⟩) := by
  have h := c7_color_decoding.2 "#00FF00" 0 255 0 rfl rfl rfl rfl rfl
  rw [h]
  norm_num

/-- C10: a transform element present but lacking a `value` attribute makes
the default string parse into an explicit 4x4 identity matrix — not an
absent (`none`) transform. -/
theorem c10_transform_missing_value (obj t : Xml)
    (h1 : findDesc "transform" obj = some t)
    (h2 : t.get "value" = none) :
    processTransform obj =
      .ok (some ⟨[1, 0, 0, 0, 0, 1, 0, 0, 0, 0, 1, 0, 0, 0, 0, 1]⟩)
    ∧ processTransform obj ≠ .ok none
    ∧ (∀ i j : Nat, i < 4 → j < 4 →
        Matrix4x4.elem ⟨[1, 0, 0, 0, 0, 1, 0, 0, 0, 0, 1, 0, 0, 0, 0, 1]⟩ i j
          = if i = j then 1 else 0) := by
  have hg : t.getD "value" identityTransformStr = identityTransformStr := by
    simp [Xml.getD, h2]
  have hv : parseFloats (splitWs identityTransformStr) =
      .ok [((1 : ℕ) : ℚ), ((0 : ℕ) : ℚ), ((0 : ℕ) : ℚ), ((0 : ℕ) : ℚ),
           ((0 : ℕ) : ℚ), ((1 : ℕ) : ℚ), ((0 : ℕ) : ℚ), ((0 : ℕ) : ℚ),
           ((0 : ℕ) : ℚ), ((0 : ℕ) : ℚ), ((1 : ℕ) : ℚ), ((0 : ℕ) : ℚ),
           ((0 : ℕ) : ℚ), ((0 : ℕ) : ℚ), ((0 : ℕ) : ℚ), ((1 : ℕ) : ℚ)] := rfl
  have hp : processTransform obj =
      .ok (some ⟨[1, 0, 0, 0, 0, 1, 0, 0, 0, 0, 1, 0, 0, 0, 0, 1]⟩) := by
    simp only [processTransform, h1, hg, hv]
    norm_num
  refine ⟨hp, by simp [hp], fun i j hi hj => ?_⟩
  interval_cases i <;> interval_cases j <;> norm_num [Matrix4x4.elem]

/-- Witness for C10 at a transform element with no attributes. -/
theorem c10_transform_missing_value_witness :
    processTransform (Xml.mk "object" [] [Xml.mk "transform" [] []]) =
      .ok (some ⟨[1, 0, 0, 0, 0, 1, 0, 0, 0, 0, 1, 0, 0, 0, 0, 1]⟩) :=
  (c10_transform_missing_value (Xml.mk "object" [] [Xml.mk "transform" [] []])
    (Xml.mk "transform" [] []) rfl rfl).1

/-- The name of a successfully parsed object is its `name` attribute,
defaulting to `Object_<n>` for the object count `n` it was handed. -/
theorem processObject_some_name (n : Nat) (o : Xml) (x : Object3MF)
    (h : processObject n o = .ok (some x)) :
    x.name = o.getD "name" ("Object_" ++ toString n) := by
  unfold processObject at h
  repeat' split at h
  all_goals simp_all
  subst h
  rfl

/-- C5: an object element with a `name` attribute yields that name; one
without it is named `Object_<n>` where `n` is the number of objects
already accumulated in the output list (0-based) when its loop iteration
runs — and that iteration appends exactly one entry. -/
theorem c5_object_name (os : List Xml) (acc : List Object3MF) (o : Xml)
    (x : Object3MF) (h : processObject acc.length o = .ok (some x)) :
    processObjects (o :: os) acc = processObjects os (acc ++ [x])
    ∧ (∀ s, o.get "name" = some s → x.name = s)
    ∧ (o.get "name" = none → x.name = "Object_" ++ toString acc.length) := by
  have hn := processObject_some_name acc.length o x h
  refine ⟨by simp only [processObjects, h], ?_, ?_⟩
  · intro s hs
    rw [hn]
    simp [Xml.getD, hs]
  · intro hs
    rw [hn]
    simp [Xml.getD, hs]

/-- Unnamed mesh-bearing object used by the C5 witness. -/
def c5NoName : Xml :=
  Xml.mk "object" []
    [Xml.mk "mesh" [] [Xml.mk "vertices" [] [], Xml.mk "triangles" [] []]]

/-- Named mesh-bearing object used by the C5 witness. -/
def c5Named : Xml :=
  Xml.mk "object" [("name", "Widget")]
    [Xml.mk "mesh" [] [Xml.mk "vertices" [] [], Xml.mk "triangles" [] []]]

/-- An accumulator already holding two parsed objects, for the C5 witness. -/
def c5Acc : List Object3MF :=
  [{ name := "A", mesh := ⟨[], []⟩ }, { name := "B", mesh := ⟨[], []⟩ }]

/-- Witness for C5: with two objects already accumulated, an unnamed
object is appended as `Object_2` and a named one keeps `Widget`. -/
theorem c5_object_name_witness :
    (({ name := "Object_2", mesh := ⟨[], []⟩ } : Object3MF).name
        = "Object_" ++ toString c5Acc.length)
    ∧ (({ name := "Widget", mesh := ⟨[], []⟩ } : Object3MF).name = "Widget")
    ∧ processObjects [c5NoName] c5Acc =
        processObjects [] (c5Acc ++ [{ name := "Object_2", mesh := ⟨[], []⟩ }]) :=
  ⟨(c5_object_name [] c5Acc c5NoName { name := "Object_2", mesh := ⟨[], []⟩ }
      rfl).2.2 rfl,
   (c5_object_name [] c5Acc c5Named { name := "Widget", mesh := ⟨[], []⟩ }
      rfl).2.1 "Widget" rfl,
   (c5_object_name [] c5Acc c5NoName { name := "Object_2", mesh := ⟨[], []⟩ }
      rfl).1⟩

/-- C8: a model entry whose payload is not well-formed XML makes
`load_3mf` fail with a parse error carrying the underlying syntax error —
the whole load aborts, so no partial object list is returned — and on
every input the traced load reports the archive handle closed before
returning, while producing the same result as `load_3mf`. -/
theorem c8_parse_error_aborts (zf : ZipFile) (entry : ZipEntry) (msg : String)
    (h1 : findModelEntry zf = some entry)
    (h2 : entry.content = .error msg) :
    load_3mf (.ok zf) = .error (.parseError msg)
    ∧ ∀ f : Except String ZipFile,
        (load_3mf_traced f).2 = true ∧ (load_3mf_traced f).1 = load_3mf f := by
  refine ⟨by simp [load_3mf, loadBody, h1, h2], ?_⟩
  intro f
  cases f <;> simp [load_3mf_traced, load_3mf]

/-- Witness for C8 at an archive whose model entry holds malformed XML. -/
theorem c8_parse_error_aborts_witness :
    load_3mf (.ok ⟨[⟨"3D/3dmodel.model", .error "syntax error: line 1"⟩]⟩) =
      .error (.parseError "syntax error: line 1") :=
  (c8_parse_error_aborts ⟨[⟨"3D/3dmodel.model", .error "syntax error: line 1"⟩]⟩
    ⟨"3D/3dmodel.model", .error "syntax error: line 1"⟩ "syntax error: line 1"
    rfl rfl).1

/-- C9: an object whose mesh lacks a `vertices` child — or lacks a
`triangles` child — makes the load raise the attribute error of calling
`findall` on `None`, aborting the entire load; none of the per-object
leniencies recovers it. -/
theorem c9_missing_sections_abort (zf : ZipFile) (entry : ZipEntry)
    (root res o m : Xml) (pre os : List Xml)
    (h1 : findModelEntry zf = some entry)
    (h2 : entry.content = .ok root)
    (h3 : findDesc "resources" root = some res)
    (h4 : findallDesc "object" res = pre ++ o :: os)
    (h5 : ∀ x ∈ pre, findDesc "mesh" x = none)
    (h6 : findDesc "mesh" o = some m) :
    (findChild "vertices" m = none →
        load_3mf (.ok zf) =
          .error (.attributeError "NoneType object has no attribute findall"))
    ∧ ∀ vs pts, findChild "vertices" m = some vs →
        buildPoints (findallChildren "vertex" vs) = .ok pts →
        findChild "triangles" m = none →
        load_3mf (.ok zf) =
          .error (.attributeError "NoneType object has no attribute findall") := by
  have hload : load_3mf (.ok zf) = processObjects (o :: os) [] := by
    simp only [load_3mf, loadBody, h1, h2, h3, h4]
    exact processObjects_skipAll pre (o :: os) [] h5
  constructor
  · intro hv
    rw [hload]
    simp only [processObjects, processObject, h6, hv]
  · intro vs pts hv hb ht
    rw [hload]
    simp only [processObjects, processObject, h6, hv, hb, ht]

/-- Mesh with neither a `vertices` nor a `triangles` child, for the C9
witness. -/
def c9Mesh : Xml := Xml.mk "mesh" [] []

/-- Object wrapping `c9Mesh`, for the C9 witness. -/
def c9Obj : Xml := Xml.mk "object" [] [c9Mesh]

/-- Model document wrapping `c9Obj`, for the C9 witness. -/
def c9Root : Xml := Xml.mk "model" [] [Xml.mk "resources" [] [c9Obj]]

/-- Witness for C9: a mesh without a `vertices` child aborts the load with
the attribute error. -/
theorem c9_missing_sections_abort_witness :
    load_3mf (.ok ⟨[⟨"3D/3dmodel.model", .ok c9Root⟩]⟩) =
      .error (.attributeError "NoneType object has no attribute findall") :=
  (c9_missing_sections_abort ⟨[⟨"3D/3dmodel.model", .ok c9Root⟩]⟩
    ⟨"3D/3dmodel.model", .ok c9Root⟩ c9Root (Xml.mk "resources" [] [c9Obj])
    c9Obj c9Mesh [] [] rfl rfl rfl rfl
    (fun x hx => absurd hx (List.not_mem_nil x)) rfl).1 rfl

/-- C1: for an archive whose model XML has, among the descendant `object`
elements of `resources`, exactly one mesh-bearing object — its mesh
carrying a `vertices` child with N `vertex` children and a `triangles`
child with M `triangle` children, all present attributes converting —
`load_3mf` returns a one-element list whose mesh holds exactly those N
points and M triangle cells, appended in document order; moreover a
missing `x`/`y`/`z` vertex attribute defaults to 0 (then parsed as float)
and a missing `v1`/`v2`/`v3` triangle attribute defaults to 0 (parsed as
integer). -/
theorem c1_single_mesh_object (zf : ZipFile) (entry : ZipEntry)
    (root res o m vs ts : Xml) (pre post : List Xml)
    (pts : List Point) (tris : List Tri)
    (col : Option Color3MF) (tr : Option Matrix4x4)
    (h1 : findModelEntry zf = some entry)
    (h2 : entry.content = .ok root)
    (h3 : findDesc "resources" root = some res)
    (h4 : findallDesc "object" res = pre ++ o :: post)
    (h5 : ∀ x ∈ pre, findDesc "mesh" x = none)
    (h6 : ∀ x ∈ post, findDesc "mesh" x = none)
    (h7 : findDesc "mesh" o = some m)
    (h8 : findChild "vertices" m = some vs)
    (h9 : buildPoints (findallChildren "vertex" vs) = .ok pts)
    (h10 : findChild "triangles" m = some ts)
    (h11 : buildTriangles (findallChildren "triangle" ts) = .ok tris)
    (h12 : processColor o = .ok col)
    (h13 : processTransform o = .ok tr) :
    (∃ obj : Object3MF, load_3mf (.ok zf) = .ok [obj]
        ∧ obj.mesh.points = pts ∧ obj.mesh.cells = tris
        ∧ obj.mesh.points.length = (findallChildren "vertex" vs).length
        ∧ obj.mesh.cells.length = (findallChildren "triangle" ts).length)
    ∧ (∀ (e : Xml) (key : String), e.get key = none → floatAttr e key = some 0)
    ∧ (∀ (e : Xml) (key : String), e.get key = none → intAttr e key = some 0) := by
  have hobj := processObject_ok 0 o m vs ts pts tris col tr
    h7 h8 h9 h10 h11 h12 h13
  have hload : load_3mf (.ok zf) = processObjects (o :: post) [] := by
    simp only [load_3mf, loadBody, h1, h2, h3, h4]
    exact processObjects_skipAll pre (o :: post) [] h5
  refine ⟨⟨{ name := o.getD "name" ("Object_" ++ toString 0),
             mesh := ⟨pts, tris⟩, transform := tr, color := col },
           ?_, rfl, rfl, ?_, ?_⟩, ?_, ?_⟩
  · rw [hload, processObjects_step o post [] _ hobj]
    have hrest := processObjects_skipAll post []
      ([] ++ [{ name := o.getD "name" ("Object_" ++ toString 0),
                mesh := ⟨pts, tris⟩, transform := tr, color := col }]) h6
    rw [List.append_nil] at hrest
    exact hrest
  · exact buildPoints_length _ _ h9
  · exact buildTriangles_length _ _ h11
  · intro e key hk
    simp [floatAttr, hk]
  · intro e key hk
    simp [intAttr, hk]

/-- The `vertices` element of the C1 witness, with two `vertex` children. -/
def c1Vertices : Xml :=
  Xml.mk "vertices" [] [Xml.mk "vertex" [] [], Xml.mk "vertex" [] []]

/-- The `triangles` element of the C1 witness, with one `triangle` child. -/
def c1Triangles : Xml :=
  Xml.mk "triangles" [] [Xml.mk "triangle" [] []]

/-- The mesh of the C1 witness. -/
def c1Mesh : Xml := Xml.mk "mesh" [] [c1Vertices, c1Triangles]

/-- The single mesh-bearing object of the C1 witness. -/
def c1Obj : Xml := Xml.mk "object" [("name", "Widget")] [c1Mesh]

/-- The model document of the C1 witness. -/
def c1Root : Xml := Xml.mk "model" [] [Xml.mk "resources" [] [c1Obj]]

/-- Witness for C1: a one-object archive with 2 vertices and 1 triangle
loads as one object with 2 points and 1 cell. -/
theorem c1_single_mesh_object_witness :
    ∃ obj : Object3MF, load_3mf (.ok ⟨[⟨"3D/3dmodel.model", .ok c1Root⟩]⟩) = .ok [obj]
      ∧ obj.mesh.points.length = 2 ∧ obj.mesh.cells.length = 1 := by
  obtain ⟨⟨obj, hl, hp, hc, hpl, hcl⟩, _, _⟩ :=
    c1_single_mesh_object ⟨[⟨"3D/3dmodel.model", .ok c1Root⟩]⟩
      ⟨"3D/3dmodel.model", .ok c1Root⟩ c1Root (Xml.mk "resources" [] [c1Obj])
      c1Obj c1Mesh c1Vertices c1Triangles [] []
      [(0, 0, 0), (0, 0, 0)] [(0, 0, 0)] none none
      rfl rfl rfl rfl (fun x hx => absurd hx (List.not_mem_nil x))
      (fun x hx => absurd hx (List.not_mem_nil x)) rfl rfl rfl rfl rfl rfl rfl
  exact ⟨obj, hl, hpl.trans rfl, hcl.trans rfl⟩
